import Mathlib

/- Shallow embedding of the real-time message subsystem of the my_manajer
backend: model/message_model.go, repository/messages_repository.go and
handler/messages_handler.go.  The Mongo collection is modelled as an
in-memory list of BSON-level message documents; each repository function
mirrors the driver calls the Go code issues, and each WebSocket handler
mirrors the corresponding Go handler.  Timestamps are natural numbers;
`time.Now()` values are threaded in as explicit parameters. -/

/-- A Mongo ObjectID, modelled by its 24-character hex string form
(`primitive.ObjectID.Hex` is the identity in this model). -/
abbrev ObjectId := String

def isHexChar (c : Char) : Bool :=
  c.isDigit || (('a' ≤ c) && (c ≤ 'f')) || (('A' ≤ c) && (c ≤ 'F'))

def isValidObjectIdHex (s : String) : Bool :=
  s.length == 24 && s.toList.all isHexChar

/-- `primitive.ObjectIDFromHex`: succeeds exactly on 24-character hex strings. -/
def objectIDFromHex (s : String) : Option ObjectId :=
  if isValidObjectIdHex s then some s else none

/-- model.MessageMediaMetadata. -/
structure MessageMediaMetadata where
  filename : String
  size : Int
  width : Int
  height : Int
  deriving DecidableEq

/-- model.MessageReaction as decoded by the driver: the emoji and the array
of user ObjectIDs. -/
structure MessageReaction where
  emoji : String
  userIDs : List ObjectId
  deriving DecidableEq

/-- One element of a message document's `reactions` BSON array.  A
well-formed element stores `userIds` as an array (`arr`); the stray
`$addToSet` in `AddMessageReaction` can also insert an element whose
`userIds` field is a single scalar ObjectID (`scalar`), which no longer
decodes into `model.MessageReaction`. -/
inductive ReactionElem where
  | arr (emoji : String) (userIds : List ObjectId)
  | scalar (emoji : String) (userId : ObjectId)
  deriving DecidableEq

def ReactionElem.emojiOf : ReactionElem → String
  | .arr e _ => e
  | .scalar e _ => e

/-- The BSON message document as stored in the `Messages` collection
(field set of model.Message, with `reactions` at the BSON level). -/
structure DbMessage where
  id : ObjectId
  channelId : ObjectId
  userId : ObjectId
  content : String
  messageType : String
  mediaPath : String
  mediaMetadata : Option MessageMediaMetadata
  createdAt : Nat
  updatedAt : Option Nat
  isPinned : Bool
  reactions : List ReactionElem
  deriving DecidableEq

/-- model.Message as produced by `Decode`: all reaction elements decoded. -/
structure Message where
  id : ObjectId
  channelId : ObjectId
  userId : ObjectId
  content : String
  messageType : String
  mediaPath : String
  mediaMetadata : Option MessageMediaMetadata
  createdAt : Nat
  updatedAt : Option Nat
  isPinned : Bool
  reactions : List MessageReaction
  deriving DecidableEq

/-- Driver decoding of one `reactions` element into model.MessageReaction:
a scalar `userIds` field cannot decode into `[]primitive.ObjectID`. -/
def decodeReactionElem : ReactionElem → Option MessageReaction
  | .arr e us => some ⟨e, us⟩
  | .scalar _ _ => none

def decodeReactions : List ReactionElem → Option (List MessageReaction)
  | [] => some []
  | r :: rs =>
    match decodeReactionElem r, decodeReactions rs with
    | some x, some xs => some (x :: xs)
    | _, _ => none

/-- Driver decoding of a stored document into model.Message. -/
def decodeDbMessage (m : DbMessage) : Option Message :=
  match decodeReactions m.reactions with
  | some rs => some ⟨m.id, m.channelId, m.userId, m.content, m.messageType,
      m.mediaPath, m.mediaMetadata, m.createdAt, m.updatedAt, m.isPinned, rs⟩
  | none => none

/-- Encoding of a model.Message into its stored document (used by InsertOne). -/
def encodeMessage (m : Message) : DbMessage :=
  ⟨m.id, m.channelId, m.userId, m.content, m.messageType, m.mediaPath,
    m.mediaMetadata, m.createdAt, m.updatedAt, m.isPinned,
    m.reactions.map fun r => .arr r.emoji r.userIDs⟩

/-- The `Messages` collection. -/
abbrev Store := List DbMessage

/-- Errors a repository call can surface (the Go functions return
`(*model.Message, error)`; `ErrNoDocuments` is folded into the `Option`
result where the source does so). -/
inductive RepoError where
  | noDocuments
  | decodeError
  deriving DecidableEq

/-- `FindOneAndUpdate`/`FindOne` with filter `{_id: id}`: first matching doc. -/
def findById (store : Store) (id : ObjectId) : Option DbMessage :=
  store.find? (fun m => m.id == id)

/-- Replace the first document matching `{_id: id}` (FindOneAndUpdate). -/
def replaceFirst : Store → ObjectId → DbMessage → Store
  | [], _, _ => []
  | m :: ms, id, m' => if m.id == id then m' :: ms else m :: replaceFirst ms id m'

/-- Remove the first document matching `{_id: id}` (DeleteOne). -/
def removeFirst : Store → ObjectId → Store
  | [], _ => []
  | m :: ms, id => if m.id == id then ms else m :: removeFirst ms id

example : objectIDFromHex "aaaaaaaaaaaaaaaaaaaaaaaa" = some "aaaaaaaaaaaaaaaaaaaaaaaa" := by decide
example : objectIDFromHex "zz" = none := by decide

/-- CreateMessage (repository): sets CreatedAt to now, IsPinned to false,
Reactions to the empty list, inserts the document, and InsertOne assigns a
fresh ObjectID (`newId`).  Returns the message as the caller sees it after
the assignment of `message.ID`. -/
def CreateMessage (store : Store) (newId : ObjectId) (now : Nat) (m : Message) :
    Message × Store :=
  let m' : Message :=
    { m with createdAt := now, isPinned := false, reactions := [], id := newId }
  (m', store ++ [encodeMessage m'])

/-- The Find sort option `{createdAt: -1}` (newest first). -/
def createdAtDesc (a b : DbMessage) : Prop := b.createdAt ≤ a.createdAt

instance : DecidableRel createdAtDesc := fun a b => Nat.decLe b.createdAt a.createdAt

instance : IsTotal DbMessage createdAtDesc :=
  ⟨fun a b => Nat.le_total b.createdAt a.createdAt⟩

instance : IsTrans DbMessage createdAtDesc :=
  ⟨fun _ _ _ h1 h2 => Nat.le_trans h2 h1⟩

def decodeMessages : List DbMessage → Option (List Message)
  | [] => some []
  | m :: ms =>
    match decodeDbMessage m, decodeMessages ms with
    | some x, some xs => some (x :: xs)
    | _, _ => none

/-- The server-side result of Find `{channelId: cid}` with sort
`{createdAt: -1}` (newest first). -/
def sortedChannelMessages (store : Store) (cid : ObjectId) : List DbMessage :=
  List.insertionSort createdAtDesc (store.filter (fun m => m.channelId == cid))

/-- The SetSkip/SetLimit options: applied only when positive, skip before
limit. -/
def pageOf (l : List DbMessage) (limit skip : Int) : List DbMessage :=
  if 0 < limit then (if 0 < skip then l.drop skip.toNat else l).take limit.toNat
  else (if 0 < skip then l.drop skip.toNat else l)

/-- GetMessagesByChannelID (repository): Find `{channelId: channelID}` with
sort `{createdAt: -1}`, then SetSkip when skip > 0 and SetLimit when
limit > 0; the cursor decodes every document. -/
def GetMessagesByChannelID (store : Store) (channelID : ObjectId)
    (limit skip : Int) : Except RepoError (List Message) :=
  match decodeMessages (pageOf (sortedChannelMessages store channelID) limit skip) with
  | some msgs => .ok msgs
  | none => .error .decodeError

/-- The `$set` document the update handler builds field by field. -/
structure SetMap where
  content : Option String
  messageType : Option String
  mediaPath : Option String
  mediaMetadata : Option MessageMediaMetadata
  isPinned : Option Bool
  deriving DecidableEq

def SetMap.isEmpty (s : SetMap) : Bool :=
  s.content.isNone && s.messageType.isNone && s.mediaPath.isNone &&
    s.mediaMetadata.isNone && s.isPinned.isNone

/-- Apply `{$set: s ∪ {updatedAt: now}}` to a stored document —
UpdateMessage always injects `updatedAt = time.Now()` into the `$set` map
before issuing the update. -/
def applySet (m : DbMessage) (s : SetMap) (now : Nat) : DbMessage :=
  { m with
    content := s.content.getD m.content
    messageType := s.messageType.getD m.messageType
    mediaPath := s.mediaPath.getD m.mediaPath
    mediaMetadata := (s.mediaMetadata.map some).getD m.mediaMetadata
    isPinned := s.isPinned.getD m.isPinned
    updatedAt := some now }

/-- UpdateMessage (repository): FindOneAndUpdate `{_id: id}` with the
`$set` document and ReturnDocument(After); ErrNoDocuments is returned as
`(nil, nil)`, i.e. `.ok none`. -/
def UpdateMessage (store : Store) (id : ObjectId) (s : SetMap) (now : Nat) :
    (Except RepoError (Option Message)) × Store :=
  match findById store id with
  | none => (.ok none, store)
  | some m =>
    let m' := applySet m s now
    let store' := replaceFirst store id m'
    match decodeDbMessage m' with
    | some dm => (.ok (some dm), store')
    | none => (.error .decodeError, store')

/-- DeleteMessage (repository): DeleteOne `{_id: id}`; DeletedCount 0 is
reported as mongo.ErrNoDocuments. -/
def DeleteMessage (store : Store) (id : ObjectId) :
    (Except RepoError Unit) × Store :=
  match findById store id with
  | none => (.error .noDocuments, store)
  | some _ => (.ok (), removeFirst store id)

/-- Mongo `$addToSet` on the whole `reactions` array: append the element
exactly when no equal element is already present. -/
def addToSetElem (rs : List ReactionElem) (e : ReactionElem) : List ReactionElem :=
  if rs.contains e then rs else rs ++ [e]

/-- Mongo `$addToSet` on `reactions.<i>.userIds`: add the id to that
element's array when absent.  (A scalar `userIds` target would be rejected
by the server; the code only issues this update for an element it has just
decoded, so that shape is unreachable and modelled as unchanged.) -/
def addUserToElem (uid : ObjectId) : ReactionElem → ReactionElem
  | .arr e us => .arr e (if us.contains uid then us else us ++ [uid])
  | .scalar e u => .scalar e u

def modifyIdx : List ReactionElem → Nat → (ReactionElem → ReactionElem) → List ReactionElem
  | [], _, _ => []
  | r :: rs, 0, f => f r :: rs
  | r :: rs, n + 1, f => r :: modifyIdx rs n f

/-- The update document `AddMessageReaction` ends up issuing. -/
inductive ReactionUpdate where
  /-- The function's initial update value, `$addToSet reactions
  {emoji, userIds: userID}` with a scalar `userIds` field; it is left in
  place (never overwritten) exactly when the user already reacted. -/
  | addToSetWhole (emoji : String) (uid : ObjectId)
  /-- `$addToSet reactions.<i>.userIds: userID`. -/
  | addToSetAt (i : Nat) (uid : ObjectId)
  /-- `$push reactions: {emoji, userIds: [userID]}`. -/
  | pushNew (emoji : String) (uid : ObjectId)
  deriving DecidableEq

/-- The `for i, reaction := range existingMessage.Reactions` scan of
AddMessageReaction, accumulating the index: on the first element with the
emoji, pick the positional `$addToSet` when the user is absent and keep
the initial whole-array `$addToSet` when the user already reacted. -/
def scanReactions : List MessageReaction → Nat → String → ObjectId → Option ReactionUpdate
  | [], _, _, _ => none
  | r :: rs, i, emoji, uid =>
    if r.emoji == emoji then
      if r.userIDs.contains uid then some (.addToSetWhole emoji uid)
      else some (.addToSetAt i uid)
    else scanReactions rs (i + 1) emoji uid

def decideReactionUpdate (rs : List MessageReaction) (emoji : String)
    (uid : ObjectId) : ReactionUpdate :=
  (scanReactions rs 0 emoji uid).getD (.pushNew emoji uid)

def applyReactionUpdate (rs : List ReactionElem) : ReactionUpdate → List ReactionElem
  | .addToSetWhole e uid => addToSetElem rs (.scalar e uid)
  | .addToSetAt i uid => modifyIdx rs i (addUserToElem uid)
  | .pushNew e uid => rs ++ [.arr e [uid]]

/-- AddMessageReaction (repository): FindOne `{_id: messageID}` and decode;
scan the decoded reactions to pick the update document; FindOneAndUpdate
with that document and ReturnDocument(After). -/
def AddMessageReaction (store : Store) (messageID userID : ObjectId)
    (emoji : String) : (Except RepoError (Option Message)) × Store :=
  match findById store messageID with
  | none => (.ok none, store)
  | some dbm =>
    match decodeDbMessage dbm with
    | none => (.error .decodeError, store)
    | some existing =>
      let upd := decideReactionUpdate existing.reactions emoji userID
      let dbm' := { dbm with reactions := applyReactionUpdate dbm.reactions upd }
      let store' := replaceFirst store messageID dbm'
      match decodeDbMessage dbm' with
      | some m' => (.ok (some m'), store')
      | none => (.error .decodeError, store')

def elemHasEmoji (emoji : String) (r : ReactionElem) : Bool :=
  r.emojiOf == emoji

def isEmptyArrElem : ReactionElem → Bool
  | .arr _ us => us.isEmpty
  | .scalar _ _ => false

/-- `$pull {reactions.$[elem].userIds: userID}` with array filter
`{elem.emoji: emoji}`: drop the user id from every matching array element.
(A scalar `userIds` target would be rejected; modelled as unchanged.) -/
def pullUserFromElem (emoji : String) (uid : ObjectId) : ReactionElem → ReactionElem
  | .arr e us => if e == emoji then .arr e (us.filter (fun u => u != uid)) else .arr e us
  | .scalar e u => .scalar e u

/-- RemoveMessageReaction (repository): FindOneAndUpdate with filter
`{_id: messageID, reactions.emoji: emoji}` and the array-filtered `$pull`,
ReturnDocument(After); then the best-effort cleanup UpdateOne with filter
`{_id: messageID, reactions.userIds: {$size: 0}}` pulling every reaction
element whose `userIds` array is empty.  The returned message is the one
decoded before the cleanup runs. -/
def RemoveMessageReaction (store : Store) (messageID userID : ObjectId)
    (emoji : String) : (Except RepoError (Option Message)) × Store :=
  match store.find? (fun m => m.id == messageID && m.reactions.any (elemHasEmoji emoji)) with
  | none => (.ok none, store)
  | some dbm =>
    let dbm1 := { dbm with reactions := dbm.reactions.map (pullUserFromElem emoji userID) }
    let store1 := replaceFirst store messageID dbm1
    match decodeDbMessage dbm1 with
    | none => (.error .decodeError, store1)
    | some m' =>
      let store2 :=
        if dbm1.reactions.any isEmptyArrElem then
          replaceFirst store1 messageID
            { dbm1 with reactions := dbm1.reactions.filter (fun r => !isEmptyArrElem r) }
        else store1
      (.ok (some m'), store2)

/-- dto.MessageMediaMetadataRequest. -/
structure MessageMediaMetadataRequest where
  filename : String
  size : Int
  width : Int
  height : Int
  deriving DecidableEq

/-- dto.MessageReactionRequest: the reaction shape of outbound responses,
one emoji and a single userId string. -/
structure MessageReactionRequest where
  emoji : String
  userID : String
  deriving DecidableEq

/-- dto.MessageCreateRequest as decoded from payload bytes (absent JSON
fields decode to Go zero values). -/
structure MessageCreateRequest where
  channelID : String
  userID : String
  content : String
  messageType : String
  mediaPath : String
  mediaMetadata : Option MessageMediaMetadataRequest
  deriving DecidableEq

/-- dto.MessageUpdateRequest: absent strings decode to "", isPinned is a
pointer and hence tri-state. -/
structure MessageUpdateRequest where
  content : String
  messageType : String
  mediaPath : String
  mediaMetadata : Option MessageMediaMetadataRequest
  isPinned : Option Bool
  deriving DecidableEq

def mediaMetadataFromRequest (r : MessageMediaMetadataRequest) : MessageMediaMetadata :=
  ⟨r.filename, r.size, r.width, r.height⟩

def convertMediaMetadataToDTO : Option MessageMediaMetadata → Option MessageMediaMetadataRequest
  | none => none
  | some m => some ⟨m.filename, m.size, m.width, m.height⟩

/-- convertMessageReactionsToDTO: each reaction entry keeps its emoji and
only `UserIDs[0].Hex()` ("" when the array is empty). -/
def convertMessageReactionsToDTO (rs : List MessageReaction) : List MessageReactionRequest :=
  rs.map fun r => ⟨r.emoji, (r.userIDs.head?).getD ""⟩

/-- dto.MessageResponse. -/
structure MessageResponse where
  id : String
  channelID : String
  userID : String
  content : String
  messageType : String
  mediaPath : String
  mediaMetadata : Option MessageMediaMetadataRequest
  createdAt : Nat
  updatedAt : Option Nat
  isPinned : Bool
  reactions : List MessageReactionRequest
  deriving DecidableEq

/-- The dto.MessageResponse every handler builds from a model.Message. -/
def messageToResponse (m : Message) : MessageResponse :=
  ⟨m.id, m.channelId, m.userId, m.content, m.messageType, m.mediaPath,
    convertMediaMetadataToDTO m.mediaMetadata, m.createdAt, m.updatedAt,
    m.isPinned, convertMessageReactionsToDTO m.reactions⟩

/-- Outbound frame payloads. -/
inductive WsPayload where
  | err (msg : String)
  | msg (m : MessageResponse)
  | msgs (ms : List MessageResponse)
  | idOnly (id : String)
  deriving DecidableEq

/-- The decoded payload of an inbound frame.  Each Go handler unmarshals
the raw payload bytes into its own request struct; `malformed` stands for
bytes that fail that unmarshal. -/
inductive WsPayloadIn where
  | create (r : MessageCreateRequest)
  | history (limit skip : Int)
  | update (id : String) (r : MessageUpdateRequest)
  | delete (id : String)
  | reaction (messageID : String) (userID : String) (emoji : String)
  | malformed
  deriving DecidableEq

/-- The observable effect of one handler invocation: frames written to the
initiating connection (WriteJSON), broadcastToChannel calls made
(channel, event type, payload), and the resulting store. -/
structure HandlerResult where
  toSender : List (String × WsPayload)
  broadcasts : List (String × String × WsPayload)
  store : Store
  deriving DecidableEq

/-- logAndEmitErrorWS: one `{"type": "error", "payload": <text>}` frame to
the sender, nothing else. -/
def errorResult (store : Store) (msg : String) : HandlerResult :=
  ⟨[("error", .err msg)], [], store⟩

def handleCreateMessage (channelIDStr : String) (payload : WsPayloadIn)
    (store : Store) (newId : ObjectId) (now : Nat) : HandlerResult :=
  match payload with
  | .create req =>
    match objectIDFromHex channelIDStr with
    | none => errorResult store "Invalid channel ID"
    | some channelID =>
      match objectIDFromHex req.userID with
      | none => errorResult store "Invalid user ID"
      | some userID =>
        let newMessage : Message :=
          { id := "", channelId := channelID, userId := userID,
            content := req.content, messageType := req.messageType,
            mediaPath := req.mediaPath,
            mediaMetadata := req.mediaMetadata.map mediaMetadataFromRequest,
            createdAt := 0, updatedAt := none, isPinned := false, reactions := [] }
        let created := CreateMessage store newId now newMessage
        let resp := messageToResponse created.1
        ⟨[("message_created", .msg resp)],
          [(channelIDStr, "new_message", .msg resp)], created.2⟩
  | _ => errorResult store "Invalid message payload"

def handleGetMessageHistory (channelIDStr : String) (payload : WsPayloadIn)
    (store : Store) : HandlerResult :=
  match objectIDFromHex channelIDStr with
  | none => errorResult store "Invalid channel ID"
  | some channelID =>
    match payload with
    | .history limit skip =>
      let limit := if limit == 0 then 50 else limit
      let skip := if skip == 0 then 0 else skip
      match GetMessagesByChannelID store channelID limit skip with
      | .error _ => errorResult store "Failed to retrieve message history"
      | .ok messages =>
        ⟨[("message_history", .msgs (messages.map messageToResponse))], [], store⟩
    | _ => errorResult store "Invalid get_message_history payload"

/-- The `$set` map handleUpdateMessage builds: a string field is included
exactly when non-empty, the metadata when the pointer is non-nil, and the
pinned flag when its pointer is non-nil. -/
def setMapOfRequest (req : MessageUpdateRequest) : SetMap where
  content := if req.content != "" then some req.content else none
  messageType := if req.messageType != "" then some req.messageType else none
  mediaPath := if req.mediaPath != "" then some req.mediaPath else none
  mediaMetadata := req.mediaMetadata.map mediaMetadataFromRequest
  isPinned := req.isPinned

def handleUpdateMessage (channelIDStr : String) (payload : WsPayloadIn)
    (store : Store) (now : Nat) : HandlerResult :=
  match payload with
  | .update idStr req =>
    match objectIDFromHex idStr with
    | none => errorResult store "Invalid message ID for update"
    | some msgObjectID =>
      let setMap := setMapOfRequest req
      if setMap.isEmpty then errorResult store "No data to update"
      else
        match UpdateMessage store msgObjectID setMap now with
        | (.error _, store') => ⟨[("error", .err "Failed to update message")], [], store'⟩
        | (.ok none, store') => ⟨[("error", .err "Message not found for update")], [], store'⟩
        | (.ok (some updated), store') =>
          let resp := messageToResponse updated
          ⟨[("message_updated", .msg resp)],
            [(channelIDStr, "message_updated", .msg resp)], store'⟩
  | _ => errorResult store "Invalid update_message payload"

def handleDeleteMessage (channelIDStr : String) (payload : WsPayloadIn)
    (store : Store) : HandlerResult :=
  match payload with
  | .delete idStr =>
    match objectIDFromHex idStr with
    | none => errorResult store "Invalid message ID for delete"
    | some msgObjectID =>
      match DeleteMessage store msgObjectID with
      | (.error .noDocuments, store') =>
        ⟨[("error", .err "Message not found for deletion")], [], store'⟩
      | (.error _, store') => ⟨[("error", .err "Failed to delete message")], [], store'⟩
      | (.ok _, store') =>
        ⟨[("message_deleted", .idOnly idStr)],
          [(channelIDStr, "message_deleted", .idOnly idStr)], store'⟩
  | _ => errorResult store "Invalid delete_message payload"

def handleAddReaction (channelIDStr : String) (payload : WsPayloadIn)
    (store : Store) : HandlerResult :=
  match payload with
  | .reaction messageIDStr userIDStr emoji =>
    match objectIDFromHex messageIDStr with
    | none => errorResult store "Invalid message ID for reaction"
    | some msgObjectID =>
      match objectIDFromHex userIDStr with
      | none => errorResult store "Invalid user ID for reaction"
      | some userID =>
        match AddMessageReaction store msgObjectID userID emoji with
        | (.error _, store') => ⟨[("error", .err "Failed to add reaction")], [], store'⟩
        | (.ok none, store') => ⟨[("error", .err "Message not found to add reaction")], [], store'⟩
        | (.ok (some updated), store') =>
          let resp := messageToResponse updated
          ⟨[("reaction_added", .msg resp)],
            [(channelIDStr, "reaction_added", .msg resp)], store'⟩
  | _ => errorResult store "Invalid add_reaction payload"

def handleRemoveReaction (channelIDStr : String) (payload : WsPayloadIn)
    (store : Store) : HandlerResult :=
  match payload with
  | .reaction messageIDStr userIDStr emoji =>
    match objectIDFromHex messageIDStr with
    | none => errorResult store "Invalid message ID for reaction removal"
    | some msgObjectID =>
      match objectIDFromHex userIDStr with
      | none => errorResult store "Invalid user ID for reaction removal"
      | some userID =>
        match RemoveMessageReaction store msgObjectID userID emoji with
        | (.error .noDocuments, store') =>
          ⟨[("error", .err "Message or reaction not found for removal")], [], store'⟩
        | (.error _, store') => ⟨[("error", .err "Failed to remove reaction")], [], store'⟩
        | (.ok none, store') =>
          ⟨[("error", .err "Message not found to remove reaction")], [], store'⟩
        | (.ok (some updated), store') =>
          let resp := messageToResponse updated
          ⟨[("reaction_removed", .msg resp)],
            [(channelIDStr, "reaction_removed", .msg resp)], store'⟩
  | _ => errorResult store "Invalid remove_reaction payload"

/-- One inbound frame as seen by the read loop after ReadMessage. -/
inductive Frame where
  | binary
  | undecodable
  | envelope (type : String) (payload : WsPayloadIn)
  deriving DecidableEq

def recognizedTypes : List String :=
  ["client_message", "get_message_history", "update_message",
    "delete_message", "add_reaction", "remove_reaction"]

/-- One iteration of the read loop of HandleWebSocketMessage after a
successful ReadMessage: non-text frames are skipped, envelope decode
failures produce one error frame, and recognized types dispatch to their
handlers; everything else is "Unknown message type". -/
def dispatchFrame (channelID : String) (f : Frame) (store : Store)
    (newId : ObjectId) (now : Nat) : HandlerResult :=
  match f with
  | .binary => ⟨[], [], store⟩
  | .undecodable => errorResult store "Invalid message format"
  | .envelope t payload =>
    if t == "client_message" then handleCreateMessage channelID payload store newId now
    else if t == "get_message_history" then handleGetMessageHistory channelID payload store
    else if t == "update_message" then handleUpdateMessage channelID payload store now
    else if t == "delete_message" then handleDeleteMessage channelID payload store
    else if t == "add_reaction" then handleAddReaction channelID payload store
    else if t == "remove_reaction" then handleRemoveReaction channelID payload store
    else errorResult store "Unknown message type"

/-- The read loop: frames arrive in order until ReadMessage fails (end of
list); each frame is paired with the fresh ObjectID and clock reading its
processing may consume.  The connection is registered for the whole run
and unregistered only when the loop exits. -/
def runReadLoop (channelID : String) :
    List (Frame × ObjectId × Nat) → Store → HandlerResult
  | [], store => ⟨[], [], store⟩
  | (f, newId, now) :: rest, store =>
    let r := dispatchFrame channelID f store newId now
    let r' := runReadLoop channelID rest r.store
    ⟨r.toSender ++ r'.toSender, r.broadcasts ++ r'.broadcasts, r'.store⟩

/-- A live duplex connection, identified abstractly. -/
abbrev Conn := Nat

/-- The handler's `activeConnections` map from channel id to its set of
open connections, modelled as an association list whose value lists fix
one possible map-iteration order. -/
abbrev Registry := List (String × List Conn)

def Registry.conns (reg : Registry) (channelID : String) : List Conn :=
  ((reg.find? (fun p => p.1 == channelID)).map Prod.snd).getD []

/-- Outcome of broadcastToChannel.  The Go function iterates the channel's
connections holding `mu.RLock()`; on the first failed WriteMessage it
calls `mu.Lock()` on the same sync.RWMutex while still holding the read
lock, and that write lock can never be acquired, so the goroutine blocks
forever.  `deadlocked` records the connections written successfully before
that point; the registry is untouched because the removal guarded by the
write lock is never reached. -/
inductive BroadcastResult where
  | completed (delivered : List Conn) (reg : Registry)
  | deadlocked (delivered : List Conn) (reg : Registry)
  deriving DecidableEq

/-- The `for conn := range connections` write loop: deliver until the
first failed write; the Bool is false when a write failed. -/
def broadcastLoop (writeOk : Conn → Bool) : List Conn → List Conn × Bool
  | [] => ([], true)
  | c :: cs =>
    if writeOk c then
      let rest := broadcastLoop writeOk cs
      (c :: rest.1, rest.2)
    else ([], false)

/-- broadcastToChannel: serialize the event once, then write it to every
connection registered under `channelID` (no-op when the channel key is
absent). -/
def broadcastToChannel (reg : Registry) (channelID : String)
    (writeOk : Conn → Bool) : BroadcastResult :=
  match reg.find? (fun p => p.1 == channelID) with
  | none => .completed [] reg
  | some entry =>
    let r := broadcastLoop writeOk entry.2
    if r.2 then .completed r.1 reg else .deadlocked r.1 reg

/- Concrete 24-hex identifiers used by witnesses and counterexamples. -/

def hexA : ObjectId := "aaaaaaaaaaaaaaaaaaaaaaaa"
def hexB : ObjectId := "bbbbbbbbbbbbbbbbbbbbbbbb"
def hexC : ObjectId := "cccccccccccccccccccccccc"
def hexD : ObjectId := "dddddddddddddddddddddddd"
def hexE : ObjectId := "eeeeeeeeeeeeeeeeeeeeeeee"
def hexF : ObjectId := "ffffffffffffffffffffffff"

def thumbsUp : String := "👍"

/-- A stored message carrying one 👍 reaction by user `hexA`. -/
def msgThumbA : DbMessage :=
  { id := hexE, channelId := hexC, userId := hexA, content := "hi",
    messageType := "text", mediaPath := "", mediaMetadata := none,
    createdAt := 1, updatedAt := none, isPinned := false,
    reactions := [.arr thumbsUp [hexA]] }

/-- A stored message with no reactions. -/
def msgPlain : DbMessage :=
  { id := hexF, channelId := hexC, userId := hexA, content := "yo",
    messageType := "text", mediaPath := "", mediaMetadata := none,
    createdAt := 2, updatedAt := none, isPinned := false, reactions := [] }

/-- C1: the claim says a broadcast in which exactly one connection's write
fails delivers the event to the other N-1 connections and unregisters the
failing one without disturbing the rest.  In the code, the failed-write
branch calls `h.mu.Lock()` while the surrounding iteration already holds
`h.mu.RLock()` on the same sync.RWMutex, so the goroutine blocks forever:
evaluated on channel `hexC` with connections [1, 2] where the write to 1
fails, the broadcast deadlocks after zero deliveries — connection 2 never
receives the event and connection 1 is never unregistered. -/
theorem C1_broadcast_write_failure_deadlocks :
    broadcastToChannel [(hexC, [1, 2])] hexC (fun c => c != 1) =
      .deadlocked [] [(hexC, [1, 2])] ∧
    Registry.conns [(hexC, [1, 2])] hexC = [1, 2] := by
  constructor <;> rfl

/-- C2: the claim says adding a reaction the user already made leaves the
reaction list unchanged.  In the code, when the scan finds the user
already present it never overwrites the initial update value, so the stray
`$addToSet reactions {emoji, userIds: userID}` (scalar `userIds`) is
issued and appends a second 👍 element: AddMessageReaction on a message
whose 👍 set already contains `hexA`, by `hexA`, changes the stored
reaction list. -/
theorem C2_add_existing_reaction_not_noop :
    (AddMessageReaction [msgThumbA] hexE hexA thumbsUp).2 =
      [{ msgThumbA with reactions := [.arr thumbsUp [hexA], .scalar thumbsUp hexA] }] ∧
    (AddMessageReaction [msgThumbA] hexE hexA thumbsUp).2 ≠ [msgThumbA] := by
  constructor
  · rfl
  · decide

/-- C3: the claim says at most one Reaction entry per emoji ever persists.
Applying add_reaction(hexA, 👍) twice to a message that starts with no
reactions leaves the stored message with two reaction elements whose emoji
is 👍 (the well-formed bucket and the stray scalar element), violating the
invariant. -/
theorem C3_duplicate_emoji_entries :
    ((AddMessageReaction (AddMessageReaction [msgPlain] hexF hexA thumbsUp).2
        hexF hexA thumbsUp).2.map
      (fun m => (m.reactions.filter (fun r => r.emojiOf == thumbsUp)).length)) = [2] := by
  decide

theorem broadcastLoop_all_ok (l : List Conn) :
    broadcastLoop (fun _ => true) l = (l, true) := by
  induction l with
  | nil => rfl
  | cons c cs ih => simp [broadcastLoop, ih]

/-- When every write succeeds, a broadcast delivers to exactly the
connections registered under the channel and leaves the registry alone. -/
theorem broadcastToChannel_all_ok (reg : Registry) (chan : String) :
    broadcastToChannel reg chan (fun _ => true) =
      .completed (Registry.conns reg chan) reg := by
  unfold broadcastToChannel Registry.conns
  cases h : reg.find? (fun p => p.1 == chan) with
  | none => simp
  | some entry => simp [broadcastLoop_all_ok]

/-- C4: a create_message frame with a valid 24-hex channel id and author
id and content "hello" persists a message with an empty reaction list and
isPinned = false, sends the sender a message_created event whose payload
content is "hello", and broadcasts a new_message event with the same
payload to the channel, whose delivery (all writes succeeding) reaches
every connection registered on that channel. -/
theorem C4_create_message_hello (chanStr uidStr mt mp : String)
    (mm : Option MessageMediaMetadataRequest) (store : Store) (reg : Registry)
    (newId : ObjectId) (now : Nat)
    (hchan : isValidObjectIdHex chanStr = true)
    (huid : isValidObjectIdHex uidStr = true) :
    ∃ resp : MessageResponse,
      handleCreateMessage chanStr (.create ⟨chanStr, uidStr, "hello", mt, mp, mm⟩)
          store newId now =
        ⟨[("message_created", .msg resp)], [(chanStr, "new_message", .msg resp)],
          store ++ [⟨newId, chanStr, uidStr, "hello", mt, mp,
            mm.map mediaMetadataFromRequest, now, none, false, []⟩]⟩ ∧
      resp.content = "hello" ∧ resp.isPinned = false ∧ resp.reactions = [] ∧
      broadcastToChannel reg chanStr (fun _ => true) =
        .completed (Registry.conns reg chanStr) reg := by
  refine ⟨⟨newId, chanStr, uidStr, "hello", mt, mp,
    convertMediaMetadataToDTO (mm.map mediaMetadataFromRequest), now, none, false, []⟩,
    ?_, rfl, rfl, rfl, broadcastToChannel_all_ok reg chanStr⟩
  simp [handleCreateMessage, objectIDFromHex, hchan, huid, CreateMessage,
    messageToResponse, encodeMessage, convertMessageReactionsToDTO]

theorem C4_witness :
    ∃ resp : MessageResponse,
      handleCreateMessage hexC (.create ⟨hexC, hexA, "hello", "text", "", none⟩) [] hexE 7 =
        ⟨[("message_created", .msg resp)], [(hexC, "new_message", .msg resp)],
          [] ++ [⟨hexE, hexC, hexA, "hello", "text", "", none, 7, none, false, []⟩]⟩ ∧
      resp.content = "hello" ∧ resp.isPinned = false ∧ resp.reactions = [] ∧
      broadcastToChannel [(hexC, [1, 2])] hexC (fun _ => true) =
        .completed (Registry.conns [(hexC, [1, 2])] hexC) [(hexC, [1, 2])] :=
  C4_create_message_hello hexC hexA "text" "" none [] [(hexC, [1, 2])] hexE 7
    (by decide) (by decide)

theorem decodeDbMessage_createdAt {m : DbMessage} {x : Message}
    (h : decodeDbMessage m = some x) : x.createdAt = m.createdAt := by
  unfold decodeDbMessage at h
  cases h' : decodeReactions m.reactions with
  | none => rw [h'] at h; cases h
  | some rs => rw [h'] at h; cases h; rfl

theorem decodeMessages_createdAt {l : List DbMessage} {msgs : List Message}
    (h : decodeMessages l = some msgs) :
    msgs.map Message.createdAt = l.map DbMessage.createdAt := by
  induction l generalizing msgs with
  | nil =>
    unfold decodeMessages at h
    cases h
    rfl
  | cons m ms ih =>
    unfold decodeMessages at h
    cases h1 : decodeDbMessage m with
    | none => rw [h1] at h; cases h
    | some x =>
      rw [h1] at h
      cases h2 : decodeMessages ms with
      | none => rw [h2] at h; cases h
      | some xs =>
        rw [h2] at h
        cases h
        simp [ih h2, decodeDbMessage_createdAt h1]

theorem pageOf_pairwise {l : List DbMessage} (limit skip : Int)
    (h : l.Pairwise createdAtDesc) :
    (pageOf l limit skip).Pairwise createdAtDesc := by
  have hw : (if 0 < skip then l.drop skip.toNat else l).Pairwise createdAtDesc := by
    split
    · exact h.sublist (List.drop_sublist _ _)
    · exact h
  unfold pageOf
  split
  · exact hw.sublist (List.take_sublist _ _)
  · exact hw

/-- Any list of messages GetMessagesByChannelID returns is ordered by
creation time descending. -/
theorem getMessages_sorted {store : Store} {cid : ObjectId} {limit skip : Int}
    {msgs : List Message}
    (h : GetMessagesByChannelID store cid limit skip = .ok msgs) :
    List.Chain' (fun a b => b.createdAt ≤ a.createdAt) msgs := by
  unfold GetMessagesByChannelID at h
  have hL : (pageOf (sortedChannelMessages store cid) limit skip).Pairwise createdAtDesc :=
    pageOf_pairwise limit skip (List.sorted_insertionSort createdAtDesc _)
  cases hd : decodeMessages (pageOf (sortedChannelMessages store cid) limit skip) with
  | none => rw [hd] at h; cases h
  | some xs =>
    rw [hd] at h
    cases h
    have hmap := decodeMessages_createdAt hd
    have h1 : ((pageOf (sortedChannelMessages store cid) limit skip).map
        DbMessage.createdAt).Pairwise (fun x y => y ≤ x) := by
      rw [List.pairwise_map]
      simpa [createdAtDesc] using hL
    rw [← hmap] at h1
    rw [List.pairwise_map] at h1
    exact h1.chain'

/-- C5: a get_message_history frame whose numeric limit and skip are zero
(or absent, which decodes to zero) is served with the default limit 50 and
skip 0, returns the channel's messages ordered by creation time descending
(newest first), answers the sender only with a message_history event, and
performs no broadcast and no store change. -/
theorem C5_history_defaults (chanStr : String) (store : Store) (msgs : List Message)
    (hchan : isValidObjectIdHex chanStr = true)
    (hok : GetMessagesByChannelID store chanStr 50 0 = .ok msgs) :
    handleGetMessageHistory chanStr (.history 0 0) store =
      ⟨[("message_history", .msgs (msgs.map messageToResponse))], [], store⟩ ∧
    List.Chain' (fun a b => b.createdAt ≤ a.createdAt) msgs := by
  refine ⟨?_, getMessages_sorted hok⟩
  unfold handleGetMessageHistory
  rw [show objectIDFromHex chanStr = some chanStr from by simp [objectIDFromHex, hchan]]
  simp [hok]

def msgYoDecoded : Message :=
  { id := hexF, channelId := hexC, userId := hexA, content := "yo",
    messageType := "text", mediaPath := "", mediaMetadata := none,
    createdAt := 2, updatedAt := none, isPinned := false, reactions := [] }

def msgHiDecoded : Message :=
  { id := hexE, channelId := hexC, userId := hexA, content := "hi",
    messageType := "text", mediaPath := "", mediaMetadata := none,
    createdAt := 1, updatedAt := none, isPinned := false,
    reactions := [⟨thumbsUp, [hexA]⟩] }

theorem C5_witness :
    handleGetMessageHistory hexC (.history 0 0) [msgThumbA, msgPlain] =
      ⟨[("message_history", .msgs ([msgYoDecoded, msgHiDecoded].map messageToResponse))],
        [], [msgThumbA, msgPlain]⟩ ∧
    List.Chain' (fun a b => b.createdAt ≤ a.createdAt) [msgYoDecoded, msgHiDecoded] :=
  C5_history_defaults hexC [msgThumbA, msgPlain] [msgYoDecoded, msgHiDecoded]
    (by decide) (by rfl)

/-- C6 counterexample: the claim says all message fields other than the
five updatable ones are left unchanged.  Updating only the content of a
message whose update timestamp is unset leaves the stored message with
updatedAt = some 5: the repository injects `updatedAt = time.Now()` into
every `$set`, so a field outside the payload subset changes. -/
theorem C6_counterexample :
    (handleUpdateMessage hexC (.update hexF ⟨"new", "", "", none, none⟩) [msgPlain] 5).store =
      [{ msgPlain with content := "new", updatedAt := some 5 }] ∧
    msgPlain.updatedAt = none := by
  constructor <;> rfl

/-- C6 (amended): for an update_message payload with at least one field
present, exactly the subset of content/messageType/mediaPath/mediaMetadata/
isPinned fields present in the payload is applied; absence never clears a
field; the pinned flag is tri-state; id, channel, author, creation time
and reactions are unchanged; and the update timestamp is always set to the
operation time. -/
theorem C6_update_applies_present_fields (chanStr idStr : String)
    (req : MessageUpdateRequest) (store : Store) (m : DbMessage) (now : Nat)
    (hval : isValidObjectIdHex idStr = true)
    (hfind : findById store idStr = some m)
    (hne : (setMapOfRequest req).isEmpty = false) :
    (handleUpdateMessage chanStr (.update idStr req) store now).store =
      replaceFirst store idStr (applySet m (setMapOfRequest req) now) ∧
    (applySet m (setMapOfRequest req) now).content =
      (if req.content != "" then req.content else m.content) ∧
    (applySet m (setMapOfRequest req) now).messageType =
      (if req.messageType != "" then req.messageType else m.messageType) ∧
    (applySet m (setMapOfRequest req) now).mediaPath =
      (if req.mediaPath != "" then req.mediaPath else m.mediaPath) ∧
    (applySet m (setMapOfRequest req) now).mediaMetadata =
      (match req.mediaMetadata with
        | some md => some (mediaMetadataFromRequest md)
        | none => m.mediaMetadata) ∧
    (applySet m (setMapOfRequest req) now).isPinned =
      (match req.isPinned with | some b => b | none => m.isPinned) ∧
    (applySet m (setMapOfRequest req) now).id = m.id ∧
    (applySet m (setMapOfRequest req) now).channelId = m.channelId ∧
    (applySet m (setMapOfRequest req) now).userId = m.userId ∧
    (applySet m (setMapOfRequest req) now).createdAt = m.createdAt ∧
    (applySet m (setMapOfRequest req) now).reactions = m.reactions ∧
    (applySet m (setMapOfRequest req) now).updatedAt = some now := by
  refine ⟨?_, ?_, ?_, ?_, ?_, ?_, rfl, rfl, rfl, rfl, rfl, rfl⟩
  · cases hdec : decodeDbMessage (applySet m (setMapOfRequest req) now) <;>
      simp [handleUpdateMessage, objectIDFromHex, hval, hne, UpdateMessage, hfind, hdec]
  · simp only [applySet, setMapOfRequest]
    split <;> simp
  · simp only [applySet, setMapOfRequest]
    split <;> simp
  · simp only [applySet, setMapOfRequest]
    split <;> simp
  · cases h : req.mediaMetadata <;> simp [applySet, setMapOfRequest, h]
  · cases h : req.isPinned <;> simp [applySet, setMapOfRequest, h]

theorem C6_witness :
    (handleUpdateMessage hexC (.update hexF ⟨"new", "", "", none, some true⟩) [msgPlain] 5).store =
      replaceFirst [msgPlain] hexF
        (applySet msgPlain (setMapOfRequest ⟨"new", "", "", none, some true⟩) 5) :=
  (C6_update_applies_present_fields hexC hexF ⟨"new", "", "", none, some true⟩
    [msgPlain] msgPlain 5 (by decide) rfl rfl).1

/-- Success path of handleAddReaction: valid ids plus a successful
repository call yield the reaction_added reply and broadcast. -/
theorem handleAddReaction_ok (chanStr midStr uidStr emoji : String)
    (store store' : Store) (updated : Message)
    (hm : isValidObjectIdHex midStr = true)
    (hu : isValidObjectIdHex uidStr = true)
    (hrepo : AddMessageReaction store midStr uidStr emoji = (.ok (some updated), store')) :
    handleAddReaction chanStr (.reaction midStr uidStr emoji) store =
      ⟨[("reaction_added", .msg (messageToResponse updated))],
        [(chanStr, "reaction_added", .msg (messageToResponse updated))], store'⟩ := by
  simp [handleAddReaction, objectIDFromHex, hm, hu, hrepo]

/-- Success path of handleRemoveReaction. -/
theorem handleRemoveReaction_ok (chanStr midStr uidStr emoji : String)
    (store store' : Store) (updated : Message)
    (hm : isValidObjectIdHex midStr = true)
    (hu : isValidObjectIdHex uidStr = true)
    (hrepo : RemoveMessageReaction store midStr uidStr emoji = (.ok (some updated), store')) :
    handleRemoveReaction chanStr (.reaction midStr uidStr emoji) store =
      ⟨[("reaction_removed", .msg (messageToResponse updated))],
        [(chanStr, "reaction_removed", .msg (messageToResponse updated))], store'⟩ := by
  simp [handleRemoveReaction, objectIDFromHex, hm, hu, hrepo]

/-- C7 counterexample: hexB adds a 👍 reaction to a message whose 👍 set
already holds hexA.  The stored set becomes [hexA, hexB], but the
reaction_added event's payload carries the reaction entry with user id
hexA only — the complete set (in particular hexB) is not in the event. -/
theorem C7_counterexample :
    (handleAddReaction hexC (.reaction hexE hexB thumbsUp) [msgThumbA]).toSender =
      [("reaction_added", .msg
        ⟨hexE, hexC, hexA, "hi", "text", "", none, 1, none, false, [⟨thumbsUp, hexA⟩]⟩)] ∧
    (AddMessageReaction [msgThumbA] hexE hexB thumbsUp).2 =
      [{ msgThumbA with reactions := [.arr thumbsUp [hexA, hexB]] }] := by
  constructor <;> rfl

/-- C7 (amended): a successful add_reaction emits reaction_added with the
updated message to the sender and as a broadcast to the channel, but each
Reaction entry of the payload carries its emoji together with only the
first user id of its user-id set ("" when the set is empty), not the
complete set. -/
theorem C7_reaction_added_payload (chanStr midStr uidStr emoji : String)
    (store store' : Store) (updated : Message)
    (hm : isValidObjectIdHex midStr = true)
    (hu : isValidObjectIdHex uidStr = true)
    (hrepo : AddMessageReaction store midStr uidStr emoji = (.ok (some updated), store')) :
    handleAddReaction chanStr (.reaction midStr uidStr emoji) store =
      ⟨[("reaction_added", .msg (messageToResponse updated))],
        [(chanStr, "reaction_added", .msg (messageToResponse updated))], store'⟩ ∧
    (messageToResponse updated).reactions =
      updated.reactions.map (fun r => ⟨r.emoji, (r.userIDs.head?).getD ""⟩) :=
  ⟨handleAddReaction_ok chanStr midStr uidStr emoji store store' updated hm hu hrepo, rfl⟩

def updatedThumbAB : Message :=
  { id := hexE, channelId := hexC, userId := hexA, content := "hi",
    messageType := "text", mediaPath := "", mediaMetadata := none,
    createdAt := 1, updatedAt := none, isPinned := false,
    reactions := [⟨thumbsUp, [hexA, hexB]⟩] }

theorem C7_witness :
    handleAddReaction hexD (.reaction hexE hexB thumbsUp) [msgThumbA] =
      ⟨[("reaction_added", .msg (messageToResponse updatedThumbAB))],
        [(hexD, "reaction_added", .msg (messageToResponse updatedThumbAB))],
        [{ msgThumbA with reactions := [.arr thumbsUp [hexA, hexB]] }]⟩ ∧
    (messageToResponse updatedThumbAB).reactions =
      updatedThumbAB.reactions.map (fun r => ⟨r.emoji, (r.userIDs.head?).getD ""⟩) :=
  C7_reaction_added_payload hexD hexE hexB thumbsUp [msgThumbA]
    [{ msgThumbA with reactions := [.arr thumbsUp [hexA, hexB]] }] updatedThumbAB
    (by decide) (by decide) rfl

/-- C8: an inbound frame whose envelope fails to decode, or whose type is
not a recognized operation tag, makes the dispatcher send exactly one
error event to the sender with no broadcast and no store change; the read
loop continues from the same state, so the remaining frames (including a
subsequent well-formed one) are processed exactly as they would have been
without the malformed frame. -/
theorem C8_malformed_frame_isolated (chan : String) (store : Store)
    (nid : ObjectId) (now : Nat) (rest : List (Frame × ObjectId × Nat)) (f : Frame)
    (hf : f = .undecodable ∨ ∃ t p, f = .envelope t p ∧ t ∉ recognizedTypes) :
    ∃ emsg, dispatchFrame chan f store nid now = ⟨[("error", .err emsg)], [], store⟩ ∧
      runReadLoop chan ((f, nid, now) :: rest) store =
        ⟨("error", .err emsg) :: (runReadLoop chan rest store).toSender,
          (runReadLoop chan rest store).broadcasts,
          (runReadLoop chan rest store).store⟩ := by
  have hd : ∃ emsg, dispatchFrame chan f store nid now = ⟨[("error", .err emsg)], [], store⟩ := by
    rcases hf with rfl | ⟨t, p, rfl, ht⟩
    · exact ⟨"Invalid message format", rfl⟩
    · simp only [recognizedTypes, List.mem_cons, List.not_mem_nil, or_false, not_or] at ht
      obtain ⟨h1, h2, h3, h4, h5, h6⟩ := ht
      exact ⟨"Unknown message type",
        by simp [dispatchFrame, errorResult, h1, h2, h3, h4, h5, h6]⟩
  obtain ⟨emsg, he⟩ := hd
  refine ⟨emsg, he, ?_⟩
  simp [runReadLoop, he]

theorem C8_witness :
    ∃ emsg, dispatchFrame hexC (.envelope "bogus" .malformed) [msgPlain] hexB 3 =
        ⟨[("error", .err emsg)], [], [msgPlain]⟩ ∧
      runReadLoop hexC
          [(.envelope "bogus" .malformed, hexB, 3),
            (.envelope "delete_message" (.delete hexF), hexA, 9)] [msgPlain] =
        ⟨("error", .err emsg) ::
            (runReadLoop hexC [(.envelope "delete_message" (.delete hexF), hexA, 9)] [msgPlain]).toSender,
          (runReadLoop hexC [(.envelope "delete_message" (.delete hexF), hexA, 9)] [msgPlain]).broadcasts,
          (runReadLoop hexC [(.envelope "delete_message" (.delete hexF), hexA, 9)] [msgPlain]).store⟩ :=
  C8_malformed_frame_isolated hexC [msgPlain] hexB 3
    [(.envelope "delete_message" (.delete hexF), hexA, 9)]
    (.envelope "bogus" .malformed)
    (Or.inr ⟨"bogus", .malformed, rfl, by decide⟩)

/-- C9: an update_message frame whose (well-formed) target message id is
not in the store makes the handler send one error event to the sender,
broadcast nothing, and leave the store unchanged. -/
theorem C9_update_not_found (chanStr idStr : String) (req : MessageUpdateRequest)
    (store : Store) (now : Nat)
    (hval : isValidObjectIdHex idStr = true)
    (hfind : findById store idStr = none) :
    ∃ emsg, handleUpdateMessage chanStr (.update idStr req) store now =
      ⟨[("error", .err emsg)], [], store⟩ := by
  by_cases he : (setMapOfRequest req).isEmpty = true
  · exact ⟨"No data to update",
      by simp [handleUpdateMessage, objectIDFromHex, hval, he, errorResult]⟩
  · exact ⟨"Message not found for update",
      by simp [handleUpdateMessage, objectIDFromHex, hval, he, UpdateMessage, hfind]⟩

theorem C9_witness :
    ∃ emsg, handleUpdateMessage hexC (.update hexE ⟨"x", "", "", none, none⟩) [msgPlain] 4 =
      ⟨[("error", .err emsg)], [], [msgPlain]⟩ :=
  C9_update_not_found hexC hexE ⟨"x", "", "", none, none⟩ [msgPlain] 4 (by decide) rfl

/-- C10: the four mutating handlers select the target message solely by
the payload's message id; none compares the message's channel id with the
channel the connection is bound to.  With the connection bound to channel
`chanStr` and the target message `m` stored under a different channel
(`m.channelId ≠ chanStr`), each operation still succeeds and its result
event is broadcast to `chanStr`'s connections. -/
theorem C10_no_channel_check (chanStr uidStr emoji emoji2 : String)
    (store storeA storeR : Store) (m : DbMessage) (req : MessageUpdateRequest)
    (updU updA updR : Message) (now : Nat)
    (hm : isValidObjectIdHex m.id = true)
    (hu : isValidObjectIdHex uidStr = true)
    (_hdiff : m.channelId ≠ chanStr)
    (hfind : findById store m.id = some m)
    (hne : (setMapOfRequest req).isEmpty = false)
    (hdecU : decodeDbMessage (applySet m (setMapOfRequest req) now) = some updU)
    (hadd : AddMessageReaction store m.id uidStr emoji = (.ok (some updA), storeA))
    (hrem : RemoveMessageReaction store m.id uidStr emoji2 = (.ok (some updR), storeR)) :
    handleUpdateMessage chanStr (.update m.id req) store now =
      ⟨[("message_updated", .msg (messageToResponse updU))],
        [(chanStr, "message_updated", .msg (messageToResponse updU))],
        replaceFirst store m.id (applySet m (setMapOfRequest req) now)⟩ ∧
    handleDeleteMessage chanStr (.delete m.id) store =
      ⟨[("message_deleted", .idOnly m.id)],
        [(chanStr, "message_deleted", .idOnly m.id)], removeFirst store m.id⟩ ∧
    handleAddReaction chanStr (.reaction m.id uidStr emoji) store =
      ⟨[("reaction_added", .msg (messageToResponse updA))],
        [(chanStr, "reaction_added", .msg (messageToResponse updA))], storeA⟩ ∧
    handleRemoveReaction chanStr (.reaction m.id uidStr emoji2) store =
      ⟨[("reaction_removed", .msg (messageToResponse updR))],
        [(chanStr, "reaction_removed", .msg (messageToResponse updR))], storeR⟩ := by
  refine ⟨?_, ?_, ?_, ?_⟩
  · simp [handleUpdateMessage, objectIDFromHex, hm, hne, UpdateMessage, hfind, hdecU]
  · simp [handleDeleteMessage, objectIDFromHex, hm, DeleteMessage, hfind]
  · exact handleAddReaction_ok chanStr m.id uidStr emoji store storeA updA hm hu hadd
  · exact handleRemoveReaction_ok chanStr m.id uidStr emoji2 store storeR updR hm hu hrem

def updatedContentZZ : Message :=
  { id := hexE, channelId := hexC, userId := hexA, content := "zz",
    messageType := "text", mediaPath := "", mediaMetadata := none,
    createdAt := 1, updatedAt := some 6, isPinned := false,
    reactions := [⟨thumbsUp, [hexA]⟩] }

def removedThumbB : Message :=
  { id := hexE, channelId := hexC, userId := hexA, content := "hi",
    messageType := "text", mediaPath := "", mediaMetadata := none,
    createdAt := 1, updatedAt := none, isPinned := false,
    reactions := [⟨thumbsUp, [hexA]⟩] }

theorem C10_witness :
    handleUpdateMessage hexD (.update msgThumbA.id ⟨"zz", "", "", none, none⟩) [msgThumbA] 6 =
      ⟨[("message_updated", .msg (messageToResponse updatedContentZZ))],
        [(hexD, "message_updated", .msg (messageToResponse updatedContentZZ))],
        replaceFirst [msgThumbA] msgThumbA.id
          (applySet msgThumbA (setMapOfRequest ⟨"zz", "", "", none, none⟩) 6)⟩ ∧
    handleDeleteMessage hexD (.delete msgThumbA.id) [msgThumbA] =
      ⟨[("message_deleted", .idOnly msgThumbA.id)],
        [(hexD, "message_deleted", .idOnly msgThumbA.id)], removeFirst [msgThumbA] msgThumbA.id⟩ ∧
    handleAddReaction hexD (.reaction msgThumbA.id hexB thumbsUp) [msgThumbA] =
      ⟨[("reaction_added", .msg (messageToResponse updatedThumbAB))],
        [(hexD, "reaction_added", .msg (messageToResponse updatedThumbAB))],
        [{ msgThumbA with reactions := [.arr thumbsUp [hexA, hexB]] }]⟩ ∧
    handleRemoveReaction hexD (.reaction msgThumbA.id hexB thumbsUp) [msgThumbA] =
      ⟨[("reaction_removed", .msg (messageToResponse removedThumbB))],
        [(hexD, "reaction_removed", .msg (messageToResponse removedThumbB))], [msgThumbA]⟩ :=
  C10_no_channel_check hexD hexB thumbsUp thumbsUp [msgThumbA]
    [{ msgThumbA with reactions := [.arr thumbsUp [hexA, hexB]] }] [msgThumbA]
    msgThumbA ⟨"zz", "", "", none, none⟩ updatedContentZZ updatedThumbAB removedThumbB 6
    (by decide) (by decide) (by decide) rfl rfl rfl rfl rfl
